import Mathlib

/-!
# Verification of the post-lifecycle subsystem of a MERN blog API

Shallow embedding of the Express route handlers in `server/routes/posts.js`
and the Mongoose model in `server/models/Post.js`, together with proofs and
refutations of the frozen specification claims.

Conventions of the embedding:
* the persisted collection of posts is a `List Post`;
* ObjectIds and user ids are plain strings; timestamps are `Nat`;
* a MongoDB `$inc` update is a single atomic transition on the store;
* each handler is a pure function from (store, request data) to
  (response, new store);
* Mongoose behaviour that the routes rely on is embedded faithfully:
  the `pre('save')` hook, the unique index on `slug` (a save whose slug is
  already taken fails with a duplicate-key error), and the fact that on a
  *new* document every path that was set is marked modified, so
  `isModified('title')` is `true` during the first save.
-/

namespace MernBlog

/-! ## Slug generation (`generateSlug` in server/models/Post.js) -/

/-- JavaScript's `\w` character class: ASCII letters, digits, underscore. -/
def isWordCharJS (c : Char) : Bool :=
  c.isAlphanum || c = '_'

/-- A character kept by the regex replace `/[^\w ]+/g → ''`:
word characters and the space. -/
def keepChar (c : Char) : Bool :=
  isWordCharJS c || c = ' '

/-- The regex replace `/ +/g → '-'`: each maximal run of spaces becomes a
single hyphen. The Boolean flag records whether we are inside a run of
spaces whose hyphen has already been emitted. -/
def collapseAux : Bool → List Char → List Char
  | _, [] => []
  | inRun, c :: cs =>
    if c = ' ' then
      if inRun then collapseAux true cs else '-' :: collapseAux true cs
    else c :: collapseAux false cs

/-- `generateSlug` from server/models/Post.js:
`title.toLowerCase().replace(/[^\w ]+/g, '').replace(/ +/g, '-')`. -/
def generateSlug (title : String) : String :=
  String.mk (collapseAux false ((title.data.map Char.toLower).filter keepChar))

/-- Modelled from the spec: "collapses runs of spaces to a single hyphen",
written directly as "on meeting a space, emit one hyphen and drop the whole
run". Used only to state the refinement theorem for the slug contract. -/
def collapseRuns : List Char → List Char
  | [] => []
  | c :: cs =>
    if c = ' ' then '-' :: collapseRuns (cs.dropWhile (fun x => x = ' '))
    else c :: collapseRuns cs
termination_by l => l.length
decreasing_by
  · simp only [List.length_cons]
    exact Nat.lt_succ_of_le (List.dropWhile_suffix _).sublist.length_le
  · simp

/-- Modelled from the spec: `deriveSlug(title)` "lowercases, strips
characters outside `[word] and space`, collapses runs of spaces to a single
hyphen". -/
def deriveSlug (title : String) : String :=
  String.mk (collapseRuns ((title.data.map Char.toLower).filter keepChar))

/-- The two renderings of the run-collapsing replace agree. -/
theorem collapseAux_eq_collapseRuns (l : List Char) :
    collapseAux false l = collapseRuns l
    ∧ collapseAux true l = collapseRuns (l.dropWhile (fun x => x = ' ')) := by
  induction l with
  | nil => simp [collapseAux, collapseRuns]
  | cons c cs ih =>
    by_cases hc : c = ' '
    · subst hc
      refine ⟨?_, ?_⟩
      · rw [collapseRuns]
        simp only [if_pos rfl, collapseAux, if_pos rfl]
        exact congrArg _ ih.2
      · rw [List.dropWhile_cons_of_pos (by simp)]
        simpa [collapseAux] using ih.2
    · refine ⟨?_, ?_⟩
      · rw [collapseRuns]
        simp only [if_neg hc, collapseAux]
        exact congrArg _ ih.1
      · rw [List.dropWhile_cons_of_neg (by simpa using hc)]
        rw [collapseRuns]
        simp only [if_neg hc, collapseAux]
        exact congrArg _ ih.1

/-! ## Data model -/

/-- An embedded image attachment: `featuredImage` subdocument of the
Post schema (`data : Buffer`, `contentType`, `filename`). -/
structure Attachment where
  data : List Nat
  contentType : String
  filename : String
deriving DecidableEq, Repr

/-- An embedded comment (`comments` array of the Post schema). -/
structure Comment where
  user : String
  content : String
  createdAt : Nat
deriving DecidableEq, Repr

/-- A persisted Post document (server/models/Post.js). -/
structure Post where
  id : String
  title : String
  content : String
  excerpt : String
  slug : String
  author : String
  category : String
  tags : List String
  isPublished : Bool
  viewCount : Nat
  featuredImage : Option Attachment
  comments : List Comment
  createdAt : Nat
deriving DecidableEq, Repr

/-- The authenticated principal attached by the `auth` middleware
(`req.user`), carrying an id and a role. -/
structure Principal where
  id : String
  role : String
deriving DecidableEq, Repr

/-- A multer-parsed upload (`req.file`): buffer, MIME type, original name. -/
structure UploadFile where
  buffer : List Nat
  mimetype : String
  originalname : String
deriving DecidableEq, Repr

/-- A JavaScript request-body value as far as the `isPublished` coercion
can observe it: absent, a boolean, or a string. -/
inductive JSVal where
  | undef : JSVal
  | bool (b : Bool) : JSVal
  | str (s : String) : JSVal
deriving DecidableEq, Repr

/-- The schema default for `isPublished` (server/models/Post.js:
`isPublished: { type: Boolean, default: false }`). -/
def schemaIsPublishedDefault : Bool := false

/-! ## Store primitives -/

/-- The persisted collection. -/
abbrev Store := List Post

/-- `express-validator`'s `isMongoId`: a 24-character hex string. -/
def isMongoIdStr (s : String) : Bool :=
  s.length = 24 && s.data.all (fun c => c.isDigit || ('a' ≤ c && c ≤ 'f') || ('A' ≤ c && c ≤ 'F'))

/-- `mongoose.Types.ObjectId.isValid`: a 24-character hex string or any
12-character string. -/
def isValidObjectId (s : String) : Bool :=
  isMongoIdStr s || s.length = 12

/-- `Post.findById(id)`. -/
def findById (store : Store) (i : String) : Option Post :=
  store.find? (fun p => p.id == i)

/-- `Post.findOne({ slug })`. -/
def findBySlug (store : Store) (s : String) : Option Post :=
  store.find? (fun p => p.slug == s)

/-- Whether some persisted post already carries this slug (the probe
`await this.findOne({ slug })` in `generateUniqueSlug`, and the unique
index on `slug` consulted at save time). -/
def slugTaken (store : Store) (s : String) : Bool :=
  store.any (fun p => p.slug == s)

/-- The probing loop of `PostSchema.statics.generateUniqueSlug`:
`while (await this.findOne({ slug })) { slug = originalSlug + '-' + counter; counter++ }`.
The loop terminates because there are finitely many posts; the fuel
`store.length + 1` supplied below is enough, since the `store.length + 1`
candidate slugs `base, base-1, …` cannot all be taken. -/
def probeSlug (store : Store) (base : String) : String → Nat → Nat → String
  | slug, _, 0 => slug
  | slug, counter, fuel + 1 =>
    if slugTaken store slug then
      probeSlug store base (base ++ "-" ++ toString counter) (counter + 1) fuel
    else slug

/-- `Post.generateUniqueSlug(title)` from server/models/Post.js. -/
def generateUniqueSlug (store : Store) (title : String) : String :=
  let base := generateSlug title
  probeSlug store base base 1 (store.length + 1)

/-- The `PostSchema.pre('save')` hook:
`if (!this.slug || this.isModified('title')) this.slug = generateSlug(this.title)`.
`titleModified` stands for `this.isModified('title')`; Mongoose marks every
path set on a *new* document as modified, so it is `true` during the first
save of a document whose title was supplied. -/
def preSaveSlug (doc : Post) (titleModified : Bool) : Post :=
  if doc.slug = "" || titleModified then { doc with slug := generateSlug doc.title }
  else doc

/-! ## Query-string parsing (`parseInt(req.query.page) || 1` etc.) -/

/-- Value of a list of decimal digits. -/
def digitsToNat (cs : List Char) : Nat :=
  cs.foldl (fun a c => a * 10 + (c.toNat - '0'.toNat)) 0

/-- A hex digit as accepted by JS `parseInt` in radix 16. -/
def isHexDigitJS (c : Char) : Bool :=
  c.isDigit || ('a' ≤ c && c ≤ 'f') || ('A' ≤ c && c ≤ 'F')

/-- Value of a list of hex digits. -/
def hexDigitsToNat (cs : List Char) : Nat :=
  cs.foldl (fun a c =>
    a * 16 +
      (if c.isDigit then c.toNat - '0'.toNat
       else if 'a' ≤ c && c ≤ 'f' then c.toNat - 'a'.toNat + 10
       else c.toNat - 'A'.toNat + 10)) 0

/-- Magnitude part of JS `parseInt` with no radix argument: a `0x`/`0X`
prefix switches to hex digits, otherwise a maximal run of decimal digits;
`NaN` (here `none`) if there are none (`parseInt('0x')` is `NaN`). -/
def parseIntMag (cs : List Char) : Option Nat :=
  match cs with
  | '0' :: x :: r =>
    if x = 'x' || x = 'X' then
      if (r.takeWhile isHexDigitJS).isEmpty then none
      else some (hexDigitsToNat (r.takeWhile isHexDigitJS))
    else
      if (cs.takeWhile Char.isDigit).isEmpty then none
      else some (digitsToNat (cs.takeWhile Char.isDigit))
  | _ =>
    if (cs.takeWhile Char.isDigit).isEmpty then none
    else some (digitsToNat (cs.takeWhile Char.isDigit))

/-- JavaScript `parseInt` on an optional query parameter, `none` meaning
`NaN`: skip leading whitespace, read an optional sign and then the
magnitude — hex after a `0x`/`0X` prefix, decimal otherwise. -/
def parseIntJS : Option String → Option Int
  | none => none
  | some s =>
    match s.data.dropWhile (fun c => c = ' ' || c = '\t' || c = '\n') with
    | '-' :: r => (parseIntMag r).map (fun n => -(n : Int))
    | '+' :: r => (parseIntMag r).map (fun n => (n : Int))
    | r => (parseIntMag r).map (fun n => (n : Int))

/-- The `x || d` defaulting idiom: `NaN` (here `none`) and `0` are falsy and
replaced by the default, every other number — including negatives — is kept. -/
def jsOrDefault (v : Option Int) (d : Int) : Int :=
  match v with
  | some n => if n = 0 then d else n
  | none => d

/-- `const page = parseInt(req.query.page) || 1`. -/
def pageOf (qpage : Option String) : Int :=
  jsOrDefault (parseIntJS qpage) 1

/-- `const limit = parseInt(req.query.limit) || 10`. -/
def limitOf (qlimit : Option String) : Int :=
  jsOrDefault (parseIntJS qlimit) 10

/-! ## Sorting (`.sort({ createdAt: -1 })`) -/

/-- Descending creation-time order. -/
def createdDesc (a b : Post) : Prop := b.createdAt ≤ a.createdAt

instance : DecidableRel createdDesc := fun a b => Nat.decLe b.createdAt a.createdAt

instance : IsTotal Post createdDesc := ⟨fun a b => Nat.le_total b.createdAt a.createdAt⟩

instance : IsTrans Post createdDesc := ⟨fun _ _ _ hab hbc => Nat.le_trans hbc hab⟩

/-- The storage layer's `sort({ createdAt: -1 })`, modelled as a stable
sort by descending `createdAt`. -/
def sortByCreatedDesc (l : List Post) : List Post :=
  List.insertionSort createdDesc l

/-! ## Response projections (`select('-featuredImage.data')`, `hasFeaturedImage`) -/

/-- The attachment fields that survive `select('-featuredImage.data')`:
content type and filename, never the bytes. -/
structure AttachmentMeta where
  contentType : String
  filename : String
deriving DecidableEq, Repr

/-- A post as serialized in list/detail responses: the image *bytes* have no
field here at all — only the metadata and the `hasFeaturedImage` flag the
handlers add. -/
structure RespPost where
  id : String
  title : String
  content : String
  excerpt : String
  slug : String
  author : String
  category : String
  tags : List String
  isPublished : Bool
  viewCount : Nat
  createdAt : Nat
  featuredImageMeta : Option AttachmentMeta
  hasFeaturedImage : Bool
deriving DecidableEq, Repr

/-- Projection of a post into its list/detail JSON shape:
`{...post.toObject(), hasFeaturedImage: !!post.featuredImage}` after
`select('-featuredImage.data')`. -/
def toResp (p : Post) : RespPost :=
  { id := p.id, title := p.title, content := p.content, excerpt := p.excerpt
    slug := p.slug, author := p.author, category := p.category, tags := p.tags
    isPublished := p.isPublished, viewCount := p.viewCount, createdAt := p.createdAt
    featuredImageMeta := p.featuredImage.map (fun a => ⟨a.contentType, a.filename⟩)
    hasFeaturedImage := p.featuredImage.isSome }

/-! ## GET /api/posts — list with pagination and category filter -/

/-- Pagination block of the list response (`{page, limit, total, pages}`;
`pages` is derived from `total` and `limit` and carries no extra
information, so it is omitted here). -/
structure Pagination where
  page : Int
  limit : Int
  total : Nat
deriving DecidableEq, Repr

/-- Response of the list and search endpoints. -/
structure ListResp where
  status : Nat
  data : List RespPost
  pagination : Option Pagination
deriving DecidableEq, Repr

/-- The Mongo query `{ isPublished: true }` plus `if (category)
query.category = category` — note an *empty* category string is falsy and
imposes no constraint. -/
def publishedQuery (store : Store) (cat : Option String) : List Post :=
  store.filter (fun p =>
    p.isPublished &&
      (match cat with
       | none => true
       | some c => c == "" || p.category == c))

/-- `router.get('/', …)` from server/routes/posts.js. A negative `skip`
(reachable because a negative parsed `page` is *not* defaulted) is rejected
by MongoDB; the handler's catch turns that into a 500 response. A negative
`limit` does reach the server: the driver sends `limit(-n)` as "at most `n`
documents in a single batch", i.e. the magnitude is used — hence
`limit.natAbs`. -/
def listPosts (store : Store) (qpage qlimit qcat : Option String) : ListResp :=
  let page := pageOf qpage
  let limit := limitOf qlimit
  let skip := (page - 1) * limit
  if skip < 0 then { status := 500, data := [], pagination := none }
  else
    let items :=
      ((sortByCreatedDesc (publishedQuery store qcat)).drop skip.toNat).take limit.natAbs
    { status := 200, data := items.map toResp
      pagination := some ⟨page, limit, (publishedQuery store qcat).length⟩ }

/-! ## GET /api/posts/search — substring search -/

/-- `leadsWith needle hay`: `needle` is an initial segment of `hay`. -/
def leadsWith : List Char → List Char → Bool
  | [], _ => true
  | _ :: _, [] => false
  | a :: as, b :: bs => a == b && leadsWith as bs

/-- `hasSubstr hay needle`: `needle` occurs contiguously in `hay`. -/
def hasSubstr : List Char → List Char → Bool
  | [], needle => needle.isEmpty
  | h :: t, needle => leadsWith needle (h :: t) || hasSubstr t needle

/-- Case-insensitive substring test, the effect of
`{ $regex: query, $options: 'i' }` for a query without regex
metacharacters. -/
def containsCI (hay needle : String) : Bool :=
  hasSubstr (hay.data.map Char.toLower) (needle.data.map Char.toLower)

/-- The search predicate: published and the query matches title OR content
OR some tag. -/
def searchMatches (q : String) (p : Post) : Bool :=
  p.isPublished &&
    (containsCI p.title q || containsCI p.content q || p.tags.any (fun t => containsCI t q))

/-- `router.get('/search', …)` from server/routes/posts.js: 400 when
`req.query.q` is missing or empty (both falsy), otherwise the matching
published posts sorted by creation time descending, limited to 20. -/
def searchPosts (store : Store) (q : Option String) : ListResp :=
  match q with
  | none => { status := 400, data := [], pagination := none }
  | some s =>
    if s = "" then { status := 400, data := [], pagination := none }
    else
      { status := 200
        data := ((sortByCreatedDesc (store.filter (searchMatches s))).take 20).map toResp
        pagination := none }

/-! ## GET /api/posts/:id — detail read with view-count increment -/

/-- Response of the detail endpoint. -/
structure DetailResp where
  status : Nat
  data : Option RespPost
deriving DecidableEq, Repr

/-- The atomic `$inc` update
`Post.findByIdAndUpdate(post._id, { $inc: { viewCount: 1 } })`: one
indivisible transition of the store — the storage layer reads and writes the
counter in a single step, so interleavings cannot observe an intermediate
state. -/
def incViewCount (store : Store) (pid : String) : Store :=
  store.map (fun p => if p.id == pid then { p with viewCount := p.viewCount + 1 } else p)

/-- `router.get('/:id', …)`: dispatch on the syntactic shape of the
identifier (ObjectId vs slug), 404 when absent, otherwise respond with the
projected post (view count as read) and atomically increment its counter. -/
def detailRead (store : Store) (ident : String) : DetailResp × Store :=
  let post? := if isValidObjectId ident then findById store ident else findBySlug store ident
  match post? with
  | none => ({ status := 404, data := none }, store)
  | some p => ({ status := 200, data := some (toResp p) }, incViewCount store p.id)

/-! ## GET /api/posts/:id/image — raw attachment bytes -/

/-- Response of the image endpoint: raw bytes with a Content-Type header,
a 404, or the catch-all 500 (e.g. a CastError on a malformed id). -/
inductive ImageResp where
  | ok (bytes : List Nat) (contentType : String) : ImageResp
  | notFound : ImageResp
  | serverError : ImageResp
deriving DecidableEq, Repr

/-- `router.get('/:id/image', …)`: 404 when the post or its attachment is
absent, otherwise the stored bytes with the stored MIME type. -/
def getImage (store : Store) (ident : String) : ImageResp :=
  if isValidObjectId ident then
    match findById store ident with
    | none => .notFound
    | some p =>
      match p.featuredImage with
      | none => .notFound
      | some a => .ok a.data a.contentType
  else .serverError

/-! ## POST /api/posts — create -/

/-- The request body of the create endpoint, as destructured by the
handler. A missing string field is the empty string for the `notEmpty`
validators, `none` for optional fields. -/
structure CreateBody where
  title : String
  content : String
  excerpt : Option String
  category : String
  tags : Option String
  isPublished : JSVal
deriving DecidableEq, Repr

/-- `tags ? tags.split(',').map(t => t.trim()).filter(t => t) : []` —
the empty string is falsy and also yields `[]`. -/
def splitTags : Option String → List String
  | none => []
  | some s =>
    if s = "" then []
    else ((s.splitOn ",").map String.trim).filter (fun t => t ≠ "")

/-- `isPublished === 'true' || isPublished === true`. -/
def coerceIsPublished (v : JSVal) : Bool :=
  v == .str "true" || v == .bool true

/-- Response of the create endpoint. -/
structure CreateResp where
  status : Nat
  data : Option RespPost
  error : Option String
deriving DecidableEq, Repr

/-- The document handed to `new Post(postData)` by the create handler,
after the `pre('save')` hook has run. The hook's `isModified('title')` is
`true` here because the document is new and its title was set, so the slug
produced by `generateUniqueSlug` is overwritten with the bare
`generateSlug(title)`. -/
def newPostDoc (store : Store) (b : CreateBody) (file : Option UploadFile)
    (author newId : String) (now : Nat) : Post :=
  preSaveSlug
    { id := newId, title := b.title, content := b.content
      excerpt := b.excerpt.getD "", slug := generateUniqueSlug store b.title
      author := author, category := b.category, tags := splitTags b.tags
      isPublished := coerceIsPublished b.isPublished, viewCount := 0
      featuredImage := file.map (fun f => ⟨f.buffer, f.mimetype, f.originalname⟩)
      comments := [], createdAt := now }
    true

/-- `router.post('/', …)`: validate title/content/category, generate the
slug, build and save the document. A save that violates the unique slug
index raises the Mongo duplicate-key error (code 11000), which the handler
maps to a 400 with the message below. -/
def createPost (store : Store) (b : CreateBody) (file : Option UploadFile)
    (author newId : String) (now : Nat) : CreateResp × Store :=
  if b.title = "" || b.content = "" || !isMongoIdStr b.category then
    ({ status := 400, data := none, error := none }, store)
  else if slugTaken store (newPostDoc store b file author newId now).slug then
    ({ status := 400, data := none
       error := some "Post with this title already exists" }, store)
  else
    -- the create response spreads `toObject()` with `featuredImage`
    -- deleted, then adds the flag
    ({ status := 201
       data := some { toResp (newPostDoc store b file author newId now) with
                      featuredImageMeta := none }
       error := none }, store ++ [newPostDoc store b file author newId now])

/-! ## PUT /api/posts/:id — update -/

/-- The request body of the update endpoint. `none` models a field absent
from the request (an `undefined` that Mongoose strips from the update). -/
structure UpdateBody where
  title : Option String
  content : Option String
  excerpt : Option String
  category : Option String
  tags : Option String
  isPublished : JSVal
  removeFeaturedImage : Option String
deriving DecidableEq, Repr

/-- Response of the update endpoint. -/
structure UpdateResp where
  status : Nat
  data : Option RespPost
deriving DecidableEq, Repr

/-- The authorization test shared verbatim by the update and delete
handlers: `post.author.toString() !== req.user.id && req.user.role !==
'admin'` guards the 403. -/
def notAuthorized (p : Post) (u : Principal) : Bool :=
  p.author != u.id && u.role != "admin"

/-- The document produced by `findByIdAndUpdate(id, updateData)`: absent
fields are stripped from the update and left unchanged; `tags` and
`isPublished` are always set; the attachment is replaced by an upload,
cleared when `removeFeaturedImage === 'true'`, otherwise untouched. No
`pre('save')` hook runs on `findByIdAndUpdate`, so `slug` — absent from
`updateData` — is untouched, as are `author`, `viewCount`, `comments` and
`createdAt`. -/
def applyUpdate (p : Post) (b : UpdateBody) (file : Option UploadFile) : Post :=
  { p with
    title := b.title.getD p.title
    content := b.content.getD p.content
    excerpt := b.excerpt.getD p.excerpt
    category := b.category.getD p.category
    tags := splitTags b.tags
    isPublished := coerceIsPublished b.isPublished
    featuredImage :=
      match file with
      | some f => some ⟨f.buffer, f.mimetype, f.originalname⟩
      | none => if b.removeFeaturedImage == some "true" then none else p.featuredImage }

/-- Replace the post with the given id (the write of `findByIdAndUpdate`). -/
def replacePost (store : Store) (pid : String) (p' : Post) : Store :=
  store.map (fun q => if q.id == pid then p' else q)

/-- The `runValidators: true` / cast step of `findByIdAndUpdate`:
update validators run on the paths present in `updateData` (absent paths
are stripped and not validated). Of the Post schema this means: `title`
required (non-empty) and `maxlength` 100, `content` required, `excerpt`
`maxlength` 200, and the `category` string must cast to an ObjectId. A
failing validator or cast throws, the handler's catch answers 500, and
nothing is written. -/
def updateValid (b : UpdateBody) : Bool :=
  (match b.title with
   | none => true
   | some t => t ≠ "" && t.length ≤ 100)
  && (match b.content with
      | none => true
      | some c => c ≠ "")
  && (match b.excerpt with
      | none => true
      | some e => e.length ≤ 200)
  && (match b.category with
      | none => true
      | some c => isValidObjectId c)

/-- `router.put('/:id', …)`: 500 on a malformed id (CastError), 404 when
absent, 403 unless author-or-admin, 500 with no write when the update
fails `runValidators`/cast inside `findByIdAndUpdate`, otherwise apply the
update and respond with the projected updated post. -/
def updatePost (store : Store) (ident : String) (u : Principal) (b : UpdateBody)
    (file : Option UploadFile) : UpdateResp × Store :=
  if isValidObjectId ident then
    match findById store ident with
    | none => ({ status := 404, data := none }, store)
    | some p =>
      if notAuthorized p u then ({ status := 403, data := none }, store)
      else if updateValid b then
        ({ status := 200, data := some (toResp (applyUpdate p b file)) }
         , replacePost store ident (applyUpdate p b file))
      else ({ status := 500, data := none }, store)
  else ({ status := 500, data := none }, store)

/-! ## DELETE /api/posts/:id -/

/-- Response of the delete endpoint. -/
structure DeleteResp where
  status : Nat
deriving DecidableEq, Repr

/-- `router.delete('/:id', …)`: 500 on a malformed id, 404 when absent,
403 unless author-or-admin, otherwise `findByIdAndDelete`. -/
def deletePost (store : Store) (ident : String) (u : Principal) : DeleteResp × Store :=
  if isValidObjectId ident then
    match findById store ident with
    | none => ({ status := 404 }, store)
    | some p =>
      if notAuthorized p u then ({ status := 403 }, store)
      else ({ status := 200 }, store.filter (fun q => !(q.id == ident)))
  else ({ status := 500 }, store)

/-! ## POST /api/posts/:id/comments -/

/-- A comment as returned after `populate('comments.user', 'username')`:
the author reference resolved to a display name, `none` when the user no
longer exists. -/
structure PopComment where
  user : Option String
  content : String
  createdAt : Nat
deriving DecidableEq, Repr

/-- Response of the comment endpoint. -/
structure CommentsResp where
  status : Nat
  data : Option (List PopComment)
deriving DecidableEq, Repr

/-- `populate('comments.user', 'username')` against a user table of
(id, username) pairs. -/
def populateComments (users : List (String × String)) (cs : List Comment) :
    List PopComment :=
  cs.map (fun c =>
    { user := (users.find? (fun u => u.1 == c.user)).map (fun u => u.2)
      content := c.content, createdAt := c.createdAt })

/-- `PostSchema.methods.addComment` followed by `save()`: push the comment,
then the `pre('save')` hook runs on the existing document — its title is
unmodified and its slug non-empty, so the slug is untouched. -/
def addComment (p : Post) (userId content : String) (now : Nat) : Post :=
  preSaveSlug { p with comments := p.comments ++ [⟨userId, content, now⟩] } false

/-- `router.post('/:id/comments', …)`: the `notEmpty` validator rejects an
empty content first; then 500 on a malformed id, 404 when the post is
absent; otherwise append the comment and answer 201 with the full updated,
populated comment sequence. -/
def appendComment (store : Store) (ident : String) (u : Principal) (content : String)
    (now : Nat) (users : List (String × String)) : CommentsResp × Store :=
  if content = "" then ({ status := 400, data := none }, store)
  else if isValidObjectId ident then
    match findById store ident with
    | none => ({ status := 404, data := none }, store)
    | some p =>
      let p' := addComment p u.id content now
      ({ status := 201, data := some (populateComments users p'.comments) }
       , replacePost store ident p')
  else ({ status := 500, data := none }, store)

/-! ## Route registration order (GET routes of server/routes/posts.js) -/

/-- One segment of an Express route pattern. -/
inductive Seg where
  | lit (s : String) : Seg
  | param : Seg
deriving DecidableEq, Repr

/-- Names for the GET routes of the posts router. -/
inductive RouteName where
  | list
  | detail
  | image
  | search
deriving DecidableEq, Repr

/-- The GET routes in their registration order in server/routes/posts.js:
`'/'` (line 22), `'/:id'` (line 71), `'/:id/image'` (line 122), and only
then `'/search'` (line 368). -/
def getRoutes : List (RouteName × List Seg) :=
  [(.list, []), (.detail, [.param]), (.image, [.param, .lit "image"]),
   (.search, [.lit "search"])]

/-- Express pattern matching on path segments. -/
def matchSegs : List Seg → List String → Bool
  | [], [] => true
  | .lit s :: ps, x :: xs => s == x && matchSegs ps xs
  | .param :: ps, _ :: xs => matchSegs ps xs
  | _, _ => false

/-- Express dispatch: the first registered route whose pattern matches. -/
def dispatchGet (path : List String) : Option RouteName :=
  (getRoutes.find? (fun r => matchSegs r.2 path)).map (fun r => r.1)

/-- Query parameters relevant to the GET routes. -/
structure QueryParams where
  page : Option String
  limit : Option String
  category : Option String
  q : Option String
deriving DecidableEq, Repr

/-- Outcome of dispatching a GET request. -/
inductive GetOut where
  | list (r : ListResp) : GetOut
  | detail (r : DetailResp) : GetOut
  | image (r : ImageResp) : GetOut
  | search (r : ListResp) : GetOut
  | noRoute : GetOut
deriving DecidableEq, Repr

/-- A GET request against the posts router, end to end: dispatch by
registration order, then run the matched handler. -/
def handleGet (store : Store) (path : List String) (qp : QueryParams) :
    GetOut × Store :=
  match dispatchGet path with
  | some .list => (.list (listPosts store qp.page qp.limit qp.category), store)
  | some .detail =>
    let (r, s') := detailRead store (path.headD "")
    (.detail r, s')
  | some .image => (.image (getImage store (path.headD "")), store)
  | some .search => (.search (searchPosts store qp.q), store)
  | none => (.noRoute, store)

/-! ## Concrete fixtures -/

/-- A valid category ObjectId. -/
def demoCategory : String := "cccccccccccccccccccccccc"

/-- A fresh post ObjectId. -/
def idA : String := "aaaaaaaaaaaaaaaaaaaaaaaa"

/-- Another fresh post ObjectId. -/
def idB : String := "bbbbbbbbbbbbbbbbbbbbbbbb"

/-- A create-request body titled "Hello World!!". -/
def helloBody : CreateBody :=
  { title := "Hello World!!", content := "Some content", excerpt := none
    category := demoCategory, tags := none, isPublished := JSVal.undef }

/-- A published post titled "tech". -/
def techPost : Post :=
  { id := idA, title := "tech", content := "tech news", excerpt := ""
    slug := "tech", author := "user1", category := demoCategory
    tags := ["tech"], isPublished := true, viewCount := 0
    featuredImage := none, comments := [], createdAt := 5 }

/-- A store holding just `techPost`. -/
def demoStore : Store := [techPost]

/-! ## Claims -/

/-- **C1** (code_bug): sequentially creating two posts whose titles derive
the same base slug is supposed to yield slugs `hello-world` and
`hello-world-1`. The first create does store `hello-world`, and
`generateUniqueSlug` does probe its way to `hello-world-1` for the second —
but the `pre('save')` hook fires on the new document with
`isModified('title')` true, overwrites the probed slug with the bare base
slug, and the save dies on the unique index: the handler answers 400
"Post with this title already exists" instead of creating the second post. -/
theorem duplicate_title_create_fails :
    (createPost [] helloBody none "user1" idA 0).1.status = 201
    ∧ ((createPost [] helloBody none "user1" idA 0).2.map Post.slug) = ["hello-world"]
    ∧ generateUniqueSlug (createPost [] helloBody none "user1" idA 0).2 "Hello World!!"
        = "hello-world-1"
    ∧ (createPost (createPost [] helloBody none "user1" idA 0).2
        helloBody none "user1" idB 1).1.status = 400
    ∧ (createPost (createPost [] helloBody none "user1" idA 0).2
        helloBody none "user1" idB 1).1.error
        = some "Post with this title already exists"
    ∧ (createPost (createPost [] helloBody none "user1" idA 0).2
        helloBody none "user1" idB 1).2
        = (createPost [] helloBody none "user1" idA 0).2 := by
  decide

/-- **C5** (code_bug): `'/:id'` is registered before `'/search'`, so a GET
for path `search` is dispatched to the detail handler, which treats
"search" as a slug and answers 404 — even though the search handler itself,
had it been reached, would have returned the matching published post. -/
theorem search_route_shadowed_by_detail :
    dispatchGet ["search"] = some RouteName.detail
    ∧ (handleGet demoStore ["search"]
        { page := none, limit := none, category := none, q := some "tech" }).1
        = GetOut.detail { status := 404, data := none }
    ∧ (searchPosts demoStore (some "tech")).status = 200
    ∧ (searchPosts demoStore (some "tech")).data = [toResp techPost] := by
  decide

/-- **C4** (counterexample): the claim says page defaults to 1 whenever the
parameter is "absent or non-positive after parsing", but `parseInt(x) || 1`
only defaults the falsy results `NaN` and `0`: a parsed `-1` is kept, and
the request observably differs from the defaulted one. -/
theorem negative_page_not_defaulted :
    pageOf (some "-1") = -1
    ∧ listPosts [] (some "-1") none none ≠ listPosts [] none none none := by
  decide

/-- **C9** (confirmed): the slug derivation is the pure function that
lowercases the title, strips every character outside word characters and
spaces, and collapses each run of spaces to a single hyphen; on
"Hello World!!" it yields "hello-world". -/
theorem slug_derivation_pure :
    (∀ t : String, generateSlug t = deriveSlug t)
    ∧ generateSlug "Hello World!!" = "hello-world" := by
  refine ⟨fun t => ?_, by decide⟩
  unfold generateSlug deriveSlug
  exact congrArg String.mk (collapseAux_eq_collapseRuns _).1

/-- An update body that touches nothing optional. -/
def noPatch : UpdateBody :=
  { title := none, content := none, excerpt := none, category := none
    tags := none, isPublished := JSVal.undef, removeFeaturedImage := none }

/-- **C2** (confirmed): the authorization test — shared verbatim by the
update and delete handlers — passes iff the principal is the post's author
or has the admin role; when it fails, both handlers answer 403 and leave
the store untouched. -/
theorem authz_author_or_admin (store : Store) (ident : String) (p : Post)
    (u : Principal) (b : UpdateBody) (file : Option UploadFile)
    (hid : isValidObjectId ident = true)
    (hfind : findById store ident = some p) :
    (notAuthorized p u = false ↔ (u.id = p.author ∨ u.role = "admin"))
    ∧ (notAuthorized p u = true →
        (updatePost store ident u b file).1.status = 403
        ∧ (updatePost store ident u b file).2 = store
        ∧ (deletePost store ident u).1.status = 403
        ∧ (deletePost store ident u).2 = store) := by
  constructor
  · rcases eq_or_ne u.id p.author with h1 | h1
    · simp [notAuthorized, h1, bne]
    · rcases eq_or_ne u.role "admin" with h2 | h2
      · simp [notAuthorized, h2, bne]
      · simp [notAuthorized, bne, h1, h2, Ne.symm h1]
  · intro h
    have hu : updatePost store ident u b file = ({ status := 403, data := none }, store) := by
      unfold updatePost
      rw [hfind, if_pos hid]
      dsimp only
      rw [if_pos h]
    have hd : deletePost store ident u = ({ status := 403 }, store) := by
      unfold deletePost
      rw [hfind, if_pos hid]
      dsimp only
      rw [if_pos h]
    rw [hu, hd]
    exact ⟨rfl, rfl, rfl, rfl⟩

/-- Closed instance of the authorization theorem: a non-author, non-admin
principal is refused with 403 by both handlers and changes nothing. -/
theorem authz_author_or_admin_witness :
    (updatePost demoStore idA ⟨"user2", "user"⟩ noPatch none).1.status = 403
    ∧ (updatePost demoStore idA ⟨"user2", "user"⟩ noPatch none).2 = demoStore
    ∧ (deletePost demoStore idA ⟨"user2", "user"⟩).1.status = 403
    ∧ (deletePost demoStore idA ⟨"user2", "user"⟩).2 = demoStore :=
  (authz_author_or_admin demoStore idA techPost ⟨"user2", "user"⟩ noPatch none
    (by decide) (by decide)).2 (by decide)

/-- `n` view-count increments applied to the store. Each application is
one atomic `$inc` transition, so an interleaving of `n` concurrent
detail reads is exactly some sequence of `n` such transitions. -/
def repeatInc (pid : String) : Nat → Store → Store
  | 0, s => s
  | n + 1, s => incViewCount (repeatInc pid n s) pid

/-- `List.find?_cons_of_pos` with the predicate explicit, to steer
unification. -/
theorem find?_cons_pos {α} (p : α → Bool) (a : α) (l : List α) (h : p a = true) :
    List.find? p (a :: l) = some a :=
  List.find?_cons_of_pos l h

/-- `List.find?_cons_of_neg` with the predicate explicit. -/
theorem find?_cons_neg {α} (p : α → Bool) (a : α) (l : List α) (h : ¬p a = true) :
    List.find? p (a :: l) = List.find? p l :=
  List.find?_cons_of_neg l h

/-- One atomic `$inc` bumps exactly the targeted post's counter by one. -/
theorem findById_incViewCount (store : Store) (pid : String) :
    findById (incViewCount store pid) pid
      = (findById store pid).map (fun p => { p with viewCount := p.viewCount + 1 }) := by
  induction store with
  | nil => rfl
  | cons q t ih =>
    simp only [incViewCount, findById, List.map_cons] at ih ⊢
    by_cases h : (q.id == pid) = true
    · rw [if_pos h,
        find?_cons_pos (fun p : Post => p.id == pid) { q with viewCount := q.viewCount + 1 } _ h,
        find?_cons_pos (fun p : Post => p.id == pid) q _ h]
      rfl
    · rw [if_neg h, find?_cons_neg (fun p : Post => p.id == pid) _ _ h,
        find?_cons_neg (fun p : Post => p.id == pid) _ _ h]
      exact ih

/-- **C3** (confirmed): the detail read bumps the view counter through the
storage layer's atomic `$inc` — a single indivisible transition — so any
interleaving of `n` concurrent increments on a post raises its `viewCount`
by exactly `n`: no lost updates. -/
theorem concurrent_view_increments (store : Store) (pid : String) (p : Post) (n : Nat)
    (hfind : findById store pid = some p) :
    findById (repeatInc pid n store) pid
      = some { p with viewCount := p.viewCount + n } := by
  induction n with
  | zero => exact hfind
  | succ n ih =>
    show findById (incViewCount (repeatInc pid n store) pid) pid = _
    rw [findById_incViewCount, ih]
    rfl

/-- Closed instance of the increment theorem: three increments on the demo
store raise the counter from 0 to 3. -/
theorem concurrent_view_increments_witness :
    findById (repeatInc idA 3 demoStore) idA
      = some { techPost with viewCount := techPost.viewCount + 3 } :=
  concurrent_view_increments demoStore idA techPost 3 (by decide)

/-- Every post in a list response is published (helper shared between the
pagination and default-publication claims). -/
theorem mem_listPosts_published (store : Store) (qp ql qc : Option String)
    (r : RespPost) (hr : r ∈ (listPosts store qp ql qc).data) :
    r.isPublished = true := by
  unfold listPosts at hr
  by_cases hs : ((pageOf qp - 1) * limitOf ql) < 0
  · rw [if_pos hs] at hr
    simp at hr
  · rw [if_neg hs] at hr
    simp only [List.mem_map] at hr
    obtain ⟨p, hp, hpr⟩ := hr
    have hp' : p ∈ sortByCreatedDesc (publishedQuery store qc) :=
      ((List.take_sublist _ _).trans (List.drop_sublist _ _)).subset hp
    have hp'' : p ∈ publishedQuery store qc :=
      (List.mem_insertionSort createdDesc).mp hp'
    have := (List.mem_filter.mp hp'').2
    have hpub : p.isPublished = true := by
      cases hpb : p.isPublished with
      | true => rfl
      | false => rw [hpb] at this; simp at this
    rw [← hpr]
    exact hpub

/-- A list response is sorted by creation time descending (helper). -/
theorem listPosts_sorted (store : Store) (qp ql qc : Option String) :
    ((listPosts store qp ql qc).data).Pairwise
      (fun a b => b.createdAt ≤ a.createdAt) := by
  unfold listPosts
  by_cases hs : ((pageOf qp - 1) * limitOf ql) < 0
  · rw [if_pos hs]
    exact List.Pairwise.nil
  · rw [if_neg hs]
    simp only
    rw [List.pairwise_map]
    have hsorted : (sortByCreatedDesc (publishedQuery store qc)).Pairwise createdDesc :=
      List.sorted_insertionSort createdDesc (publishedQuery store qc)
    exact List.Pairwise.sublist ((List.take_sublist _ _).trans (List.drop_sublist _ _)) hsorted

/-- **C4** (corrected): under the default filter a list response contains
no unpublished post, is sorted by creation time descending, and pages with
`skip = (page-1)*limit`; but the `||` defaulting only replaces an absent,
non-numeric or zero parameter — a negative parsed value is kept (see the
counterexample), so the amended defaulting clause reads "absent,
non-numeric, or zero after parsing". A kept negative page makes the skip
negative and the request fail 500; a kept negative limit reaches the
storage layer, which serves up to its magnitude, as the pagination
equation below records via `natAbs`. -/
theorem list_published_sorted_defaults (store : Store) (qp ql qc : Option String) :
    (parseIntJS qp = none ∨ parseIntJS qp = some 0 → pageOf qp = 1)
    ∧ (parseIntJS ql = none ∨ parseIntJS ql = some 0 → limitOf ql = 10)
    ∧ (∀ r ∈ (listPosts store qp ql qc).data, r.isPublished = true)
    ∧ ((listPosts store qp ql qc).data).Pairwise
        (fun a b => b.createdAt ≤ a.createdAt)
    ∧ (0 ≤ (pageOf qp - 1) * limitOf ql →
        (listPosts store qp ql qc).data
          = (((sortByCreatedDesc (publishedQuery store qc)).drop
                ((pageOf qp - 1) * limitOf ql).toNat).take
              (limitOf ql).natAbs).map toResp) := by
  refine ⟨?_, ?_, ?_, listPosts_sorted store qp ql qc, ?_⟩
  · intro h
    rcases h with h | h <;> simp [pageOf, jsOrDefault, h]
  · intro h
    rcases h with h | h <;> simp [limitOf, jsOrDefault, h]
  · intro r hr
    exact mem_listPosts_published store qp ql qc r hr
  · intro h
    unfold listPosts
    rw [if_neg (by omega)]

/-- Closed instance of the list theorem on the demo store with a zero page
parameter, which is defaulted to 1. -/
theorem list_published_sorted_defaults_witness :
    pageOf (some "0") = 1
    ∧ (∀ r ∈ (listPosts demoStore (some "0") none none).data, r.isPublished = true)
    ∧ (listPosts demoStore (some "0") none none).data
        = (((sortByCreatedDesc (publishedQuery demoStore none)).drop 0).take 10).map toResp :=
  ⟨(list_published_sorted_defaults demoStore (some "0") none none).1 (Or.inr (by decide)),
   (list_published_sorted_defaults demoStore (some "0") none none).2.2.1,
   (list_published_sorted_defaults demoStore (some "0") none none).2.2.2.2 (by decide)⟩

/-! ## Structural facts about the pre-save hook and store writes -/

/-- The `pre('save')` hook touches only the slug. -/
theorem preSaveSlug_id (q : Post) (m : Bool) : (preSaveSlug q m).id = q.id := by
  unfold preSaveSlug; split <;> rfl

/-- The `pre('save')` hook leaves the comments alone. -/
theorem preSaveSlug_comments (q : Post) (m : Bool) :
    (preSaveSlug q m).comments = q.comments := by
  unfold preSaveSlug; split <;> rfl

/-- The `pre('save')` hook leaves `isPublished` alone. -/
theorem preSaveSlug_isPublished (q : Post) (m : Bool) :
    (preSaveSlug q m).isPublished = q.isPublished := by
  unfold preSaveSlug; split <;> rfl

/-- After `replacePost`, looking the id up finds exactly the replacement
(provided the replacement kept the id and the id was present). -/
theorem findById_replacePost (store : Store) (pid : String) (p p' : Post)
    (hfind : findById store pid = some p) (hid : (p'.id == pid) = true) :
    findById (replacePost store pid p') pid = some p' := by
  induction store with
  | nil => simp [findById] at hfind
  | cons q t ih =>
    unfold findById at hfind ih ⊢
    unfold replacePost at ih ⊢
    rw [List.map_cons]
    by_cases h : (q.id == pid) = true
    · rw [if_pos h, find?_cons_pos (fun r : Post => r.id == pid) p' _ hid]
    · rw [if_neg h, find?_cons_neg (fun r : Post => r.id == pid) q _ h]
      rw [find?_cons_neg (fun r : Post => r.id == pid) q _ h] at hfind
      exact ih hfind

/-- The element found by `findById` actually carries the looked-up id. -/
theorem findById_id_eq (store : Store) (i : String) (p : Post)
    (h : findById store i = some p) : (p.id == i) = true := by
  unfold findById at h
  have h2 := List.find?_some h
  simpa using h2

/-- A patch the schema accepts: new title and content within bounds. -/
def fullPatch : UpdateBody :=
  { noPatch with title := some "New title", content := some "New content" }

/-- A 150-character title, beyond the schema's `maxlength: 100`. -/
def longTitle : String := String.mk (List.replicate 150 'a')

/-- **C7** (confirmed): a *successful* update writes exactly
`applyUpdate p b file` back — a document in which only title, content,
excerpt, category, tags, isPublished and featuredImage were recomputed —
so author, viewCount, comments, slug and createdAt (and the id) are
unchanged; `findByIdAndUpdate` runs no save hook, so the slug stays even
when the title changes. An authorized update that fails the
`runValidators`/cast step of `findByIdAndUpdate` (e.g. an over-long title
or a non-ObjectId category) answers 500 and writes nothing, so the frame
holds trivially there too. -/
theorem update_touches_only_mutable_fields (store : Store) (ident : String)
    (u : Principal) (b : UpdateBody) (file : Option UploadFile) (p : Post)
    (hid : isValidObjectId ident = true)
    (hfind : findById store ident = some p)
    (hauth : notAuthorized p u = false) :
    (updateValid b = false →
      (updatePost store ident u b file).1.status = 500
      ∧ (updatePost store ident u b file).2 = store)
    ∧ (updateValid b = true →
      (updatePost store ident u b file).1.status = 200
      ∧ findById (updatePost store ident u b file).2 ident
          = some (applyUpdate p b file))
    ∧ (applyUpdate p b file).author = p.author
    ∧ (applyUpdate p b file).viewCount = p.viewCount
    ∧ (applyUpdate p b file).comments = p.comments
    ∧ (applyUpdate p b file).slug = p.slug
    ∧ (applyUpdate p b file).createdAt = p.createdAt
    ∧ (applyUpdate p b file).id = p.id := by
  have hpid : (p.id == ident) = true := findById_id_eq store ident p hfind
  refine ⟨?_, ?_, rfl, rfl, rfl, rfl, rfl, rfl⟩
  · intro hv
    have h500 : updatePost store ident u b file
        = ({ status := 500, data := none }, store) := by
      unfold updatePost
      rw [hfind, if_pos hid]
      dsimp only
      rw [if_neg (by rw [hauth]; simp), if_neg (by rw [hv]; simp)]
    rw [h500]
    exact ⟨rfl, rfl⟩
  · intro hv
    have h200 : updatePost store ident u b file
        = ({ status := 200, data := some (toResp (applyUpdate p b file)) }
           , replacePost store ident (applyUpdate p b file)) := by
      unfold updatePost
      rw [hfind, if_pos hid]
      dsimp only
      rw [if_neg (by rw [hauth]; simp), if_pos hv]
    rw [h200]
    exact ⟨rfl, findById_replacePost store ident p (applyUpdate p b file) hfind hpid⟩

set_option maxRecDepth 4000 in
/-- Closed instance of the frame theorem: the author's valid patch
succeeds and slug, author, viewCount, comments and createdAt survive,
while the author's over-long title is refused with 500 and no write. -/
theorem update_touches_only_mutable_fields_witness :
    ((updatePost demoStore idA ⟨"user1", "user"⟩
        { noPatch with title := some longTitle } none).1.status = 500
      ∧ (updatePost demoStore idA ⟨"user1", "user"⟩
        { noPatch with title := some longTitle } none).2 = demoStore)
    ∧ (updatePost demoStore idA ⟨"user1", "user"⟩ fullPatch none).1.status = 200
    ∧ findById (updatePost demoStore idA ⟨"user1", "user"⟩ fullPatch none).2 idA
        = some (applyUpdate techPost fullPatch none)
    ∧ (applyUpdate techPost fullPatch none).slug = techPost.slug := by
  have h1 := update_touches_only_mutable_fields demoStore idA ⟨"user1", "user"⟩
    { noPatch with title := some longTitle } none techPost
    (by decide) (by decide) (by decide)
  have h2 := update_touches_only_mutable_fields demoStore idA ⟨"user1", "user"⟩
    fullPatch none techPost (by decide) (by decide) (by decide)
  exact ⟨h1.1 (by decide), (h2.2.1 (by decide)).1, (h2.2.1 (by decide)).2,
    h2.2.2.2.2.2.1⟩

/-- The comments written by `addComment` are exactly the old sequence with
the new comment appended. -/
theorem addComment_comments (p : Post) (uid content : String) (now : Nat) :
    (addComment p uid content now).comments
      = p.comments ++ [⟨uid, content, now⟩] := by
  unfold addComment
  rw [preSaveSlug_comments]

/-- **C8** (confirmed): appending a comment answers 400 when the content is
empty (checked first) leaving the store unchanged, 404 when the post is
absent leaving the store unchanged; otherwise it appends exactly one
comment — the given author and content with the server-assigned
timestamp — at the end of the post's sequence and answers 201 with the full
updated sequence populated with author display data. -/
theorem comment_append_spec (store : Store) (ident : String) (u : Principal)
    (content : String) (now : Nat) (users : List (String × String)) (p : Post)
    (hid : isValidObjectId ident = true) :
    (content = "" →
      (appendComment store ident u content now users).1 = { status := 400, data := none }
      ∧ (appendComment store ident u content now users).2 = store)
    ∧ (content ≠ "" → findById store ident = none →
      (appendComment store ident u content now users).1 = { status := 404, data := none }
      ∧ (appendComment store ident u content now users).2 = store)
    ∧ (content ≠ "" → findById store ident = some p →
      (appendComment store ident u content now users).1.status = 201
      ∧ findById (appendComment store ident u content now users).2 ident
          = some (addComment p u.id content now)
      ∧ (addComment p u.id content now).comments
          = p.comments ++ [⟨u.id, content, now⟩]
      ∧ (appendComment store ident u content now users).1.data
          = some (populateComments users (p.comments ++ [⟨u.id, content, now⟩]))) := by
  refine ⟨?_, ?_, ?_⟩
  · intro he
    unfold appendComment
    rw [if_pos he]
    exact ⟨rfl, rfl⟩
  · intro he hnone
    unfold appendComment
    rw [if_neg he, if_pos hid, hnone]
    exact ⟨rfl, rfl⟩
  · intro he hfind
    have hpid : (p.id == ident) = true := findById_id_eq store ident p hfind
    have hpid' : ((addComment p u.id content now).id == ident) = true := by
      unfold addComment
      rw [preSaveSlug_id]
      exact hpid
    have happ : appendComment store ident u content now users
        = ({ status := 201
             data := some (populateComments users (addComment p u.id content now).comments) }
           , replacePost store ident (addComment p u.id content now)) := by
      unfold appendComment
      rw [if_neg he, if_pos hid, hfind]
    rw [happ]
    refine ⟨rfl, ?_, addComment_comments p u.id content now, ?_⟩
    · exact findById_replacePost store ident p (addComment p u.id content now) hfind hpid'
    · rw [addComment_comments]

/-- Closed instance of the comment theorem: a second user comments on the
demo post; the response carries the populated updated sequence. -/
theorem comment_append_spec_witness :
    (appendComment demoStore idA ⟨"user2", "user"⟩ "Nice post" 7 [("user2", "bob")]).1.status
      = 201
    ∧ (appendComment demoStore idA ⟨"user2", "user"⟩ "Nice post" 7 [("user2", "bob")]).1.data
      = some (populateComments [("user2", "bob")]
          (techPost.comments ++ [⟨"user2", "Nice post", 7⟩])) := by
  have h := (comment_append_spec demoStore idA ⟨"user2", "user"⟩ "Nice post" 7
    [("user2", "bob")] techPost (by decide)).2.2 (by decide) (by decide)
  exact ⟨h.1, h.2.2.2⟩

/-- Every post in a search response is published (helper). -/
theorem mem_searchPosts_published (store : Store) (q : Option String)
    (r : RespPost) (hr : r ∈ (searchPosts store q).data) :
    r.isPublished = true := by
  unfold searchPosts at hr
  cases q with
  | none => simp at hr
  | some s =>
    dsimp only at hr
    by_cases hs : s = ""
    · rw [if_pos hs] at hr
      simp at hr
    · rw [if_neg hs] at hr
      simp only [List.mem_map] at hr
      obtain ⟨p, hp, hpr⟩ := hr
      have hp' : p ∈ sortByCreatedDesc (store.filter (searchMatches s)) :=
        (List.take_sublist _ _).subset hp
      have hp'' : p ∈ store.filter (searchMatches s) :=
        (List.mem_insertionSort createdDesc).mp hp'
      have hmatch := (List.mem_filter.mp hp'').2
      have hpub : p.isPublished = true := by
        unfold searchMatches at hmatch
        cases hpb : p.isPublished with
        | true => rfl
        | false => rw [hpb] at hmatch; simp at hmatch
      rw [← hpr]
      exact hpub

/-- **C10** (confirmed): unless the create request carries boolean `true`
or the exact string "true" for `isPublished`, the coercion yields `false`,
the created document is unpublished (matching the schema default `false`),
and — since list and search responses contain only published posts — it is
excluded from both until explicitly published. -/
theorem unpublished_unless_true (v : JSVal) (store : Store) (b : CreateBody)
    (file : Option UploadFile) (author newId : String) (now : Nat)
    (hb : v ≠ JSVal.bool true) (hs : v ≠ JSVal.str "true")
    (hv : b.isPublished = v) :
    coerceIsPublished v = false
    ∧ (newPostDoc store b file author newId now).isPublished = false
    ∧ schemaIsPublishedDefault = false
    ∧ (∀ (s : Store) (qp ql qc : Option String),
        toResp (newPostDoc store b file author newId now) ∉ (listPosts s qp ql qc).data)
    ∧ (∀ (s : Store) (q : Option String),
        toResp (newPostDoc store b file author newId now) ∉ (searchPosts s q).data) := by
  have hc : coerceIsPublished v = false := by
    cases v with
    | undef => rfl
    | bool bb =>
      cases bb with
      | false => rfl
      | true => exact absurd rfl hb
    | str ss =>
      have hne : ss ≠ "true" := fun h => hs (by rw [h])
      simp [coerceIsPublished, hne]
  have hdoc : (newPostDoc store b file author newId now).isPublished = false := by
    have h1 : (newPostDoc store b file author newId now).isPublished
        = coerceIsPublished b.isPublished := by
      unfold newPostDoc
      rw [preSaveSlug_isPublished]
    rw [h1, hv, hc]
  have hflag : (toResp (newPostDoc store b file author newId now)).isPublished = false := hdoc
  refine ⟨hc, hdoc, rfl, ?_, ?_⟩
  · intro s qp ql qc hmem
    have := mem_listPosts_published s qp ql qc _ hmem
    rw [hflag] at this
    exact Bool.false_ne_true this
  · intro s q hmem
    have := mem_searchPosts_published s q _ hmem
    rw [hflag] at this
    exact Bool.false_ne_true this

/-- Closed instance of the default-publication theorem: a create request
with `isPublished` absent yields an unpublished document that neither the
list nor the search response of the demo store contains. -/
theorem unpublished_unless_true_witness :
    coerceIsPublished JSVal.undef = false
    ∧ (newPostDoc [] helloBody none "user1" idB 9).isPublished = false
    ∧ toResp (newPostDoc [] helloBody none "user1" idB 9)
        ∉ (listPosts demoStore none none none).data
    ∧ toResp (newPostDoc [] helloBody none "user1" idB 9)
        ∉ (searchPosts demoStore (some "hello")).data := by
  have h := unpublished_unless_true JSVal.undef [] helloBody none "user1" idB 9
    (by decide) (by decide) rfl
  exact ⟨h.1, h.2.1, h.2.2.2.1 demoStore none none none, h.2.2.2.2 demoStore (some "hello")⟩

end MernBlog

